import Mathlib

/-!
Verification of the mirgecom driver layer: the compressible-Euler flux
machinery, the initializers, the restart/checkpoint driver and the
logging state-consumer contract.  Scalars are modelled by exact rational
arithmetic; fields are treated pointwise (one node at a time) because
every operation under study acts componentwise on the node data.  The
transcendental ingredients (Gaussian factors, wave speeds) that a node
value can carry enter as explicit parameters.
-/

/-- A conserved fluid state at one spatial node: density (mass), total
energy, and the momentum vector with one component per spatial
dimension.  This is the record produced by splitting the flat state
vector q = (rho, rhoE, rhoV). -/
@[ext]
structure ConservedVars (dim : Nat) where
  mass : ℚ
  energy : ℚ
  momentum : Fin dim → ℚ

/-- Dot product of two momentum-shaped vectors. -/
def dotVec {dim : Nat} (a b : Fin dim → ℚ) : ℚ :=
  ∑ i, a i * b i

/-- Modelled from the spec: mirgecom/eos.py (IdealSingleGas) is not under
src/.  Kinetic energy of a conserved state,
0.5 * (momentum . momentum) / mass. -/
def kineticEnergy {dim : Nat} (q : ConservedVars dim) : ℚ :=
  1/2 * dotVec q.momentum q.momentum / q.mass

/-- Modelled from the spec: mirgecom/eos.py (IdealSingleGas.pressure) is
not under src/.  Ideal-gas pressure p = (gamma - 1) * (energy -
kinetic_energy). -/
def pressure {dim : Nat} (gamma : ℚ) (q : ConservedVars dim) : ℚ :=
  (gamma - 1) * (q.energy - kineticEnergy q)

/-- Default ratio of specific heats of IdealSingleGas, gamma = 1.4. -/
def idealGasGamma : ℚ := 7/5

/-- The inviscid flux tensor: one spatial column per dimension for the
mass and energy rows, and a dim-by-dim block for momentum, matching the
flat layout rho_flux (dim), rhoE_flux (dim), mom_flux (dim*dim). -/
@[ext]
structure FluxTensor (dim : Nat) where
  massF : Fin dim → ℚ
  energyF : Fin dim → ℚ
  momF : Fin dim → Fin dim → ℚ

/-- Modelled from the spec: mirgecom/euler.py _inviscid_flux is not under
src/.  Physical (inviscid) Euler flux of a conserved state: mass flux
rhoV, energy flux ((rhoE + p)/rho) * rhoV, momentum flux
rhoV_i*rhoV_j/rho + p on the diagonal, with p from the ideal-gas EOS. -/
def _inviscid_flux {dim : Nat} (gamma : ℚ) (q : ConservedVars dim) :
    FluxTensor dim :=
  let p := pressure gamma q
  { massF := q.momentum
    energyF := fun i => (q.energy + p) / q.mass * q.momentum i
    momF := fun i j =>
      q.momentum i * q.momentum j / q.mass + if i = j then p else 0 }

/-- The reference flux formulas exactly as the claim states them:
mass_flux = rho*v; energy_flux = (E + p) * v with v = rho*v/rho and
p = (gamma - 1) * (E - 0.5 * (rho*v . rho*v) / rho);
momentum_flux[i][j] = rho*v_i*v_j + p*delta_ij. -/
def referenceFlux {dim : Nat} (gamma : ℚ) (q : ConservedVars dim) :
    FluxTensor dim :=
  let v := fun i => q.momentum i / q.mass
  let p := (gamma - 1) * (q.energy - 1/2 * dotVec q.momentum q.momentum / q.mass)
  { massF := q.momentum
    energyF := fun i => (q.energy + p) * v i
    momF := fun i j => q.mass * v i * v j + if i = j then p else 0 }

/-- C1: for every conserved state (rho, E, rho*v) with rho nonzero, the
inviscid physical flux computed by _inviscid_flux equals exactly (zero
residual, in exact arithmetic) the reference formulas mass_flux = rho*v,
energy_flux = (E + p)*v with v = rho*v/rho and
p = (gamma-1)*(E - 0.5*(rho*v . rho*v)/rho), and
momentum_flux[i][j] = rho*v_i*v_j + p*delta_ij. -/
theorem inviscid_flux_eq_reference {dim : Nat} (gamma : ℚ)
    (q : ConservedVars dim) (hmass : q.mass ≠ 0) :
    _inviscid_flux gamma q = referenceFlux gamma q := by
  unfold _inviscid_flux referenceFlux pressure kineticEnergy
  refine FluxTensor.ext ?_ ?_ ?_
  · rfl
  · funext i
    field_simp
  · funext i j
    simp only
    congr 1
    field_simp

/-- Witness for C1 at a concrete two-dimensional state with nonzero
density. -/
theorem inviscid_flux_eq_reference_witness :
    _inviscid_flux (7/5)
        (⟨2, 5, fun i => if i = (0 : Fin 2) then 3 else 4⟩ : ConservedVars 2)
      = referenceFlux (7/5)
        (⟨2, 5, fun i => if i = (0 : Fin 2) then 3 else 4⟩ : ConservedVars 2) :=
  inviscid_flux_eq_reference (7/5) _ (by norm_num)

/-- A trace pair at a set of faces: the face-set tag (for interior faces
or a boundary tag) together with the interior and exterior states.  Both
states have the same shape, so the facial flux applies uniformly. -/
structure TracePair (dim : Nat) where
  dd : String
  interior : ConservedVars dim
  exterior : ConservedVars dim

/-- An outward unit normal of the regular rectangular mesh: the k-th
coordinate axis direction with sign s. -/
def axisNormal {dim : Nat} (k : Fin dim) (s : ℚ) : Fin dim → ℚ :=
  fun j => if j = k then s else 0

/-- Modelled from the spec: mirgecom/euler.py _facial_flux is not under
src/.  Lax-Friedrichs-type numerical flux of a trace pair: the centered
average of the physical fluxes of the two states projected onto the
outward normal, plus a penalty proportional to the jump in state across
the interface.  The penalty coefficient lam (a maximum wave speed,
computed externally from the EOS sound speed) enters as a parameter.
The formula reads only the pair's states, never the face tag. -/
def _facial_flux {dim : Nat} (gamma lam : ℚ) (tp : TracePair dim)
    (normal : Fin dim → ℚ) : ConservedVars dim :=
  let fint := _inviscid_flux gamma tp.interior
  let fext := _inviscid_flux gamma tp.exterior
  { mass := (∑ j, (fint.massF j + fext.massF j) / 2 * normal j)
      + lam / 2 * (tp.interior.mass - tp.exterior.mass)
    energy := (∑ j, (fint.energyF j + fext.energyF j) / 2 * normal j)
      + lam / 2 * (tp.interior.energy - tp.exterior.energy)
    momentum := fun i => (∑ j, (fint.momF i j + fext.momF i j) / 2 * normal j)
      + lam / 2 * (tp.interior.momentum i - tp.exterior.momentum i) }

/-- C3: for a conserved state with zero momentum, the numerical facial
flux of a trace pair whose exterior equals its interior is the
normal-projected physical flux with zero jump penalty: the mass and
energy components vanish exactly, each momentum component has magnitude
equal to the pressure along its axis normal (and zero along the other
axis normals), and the result is identical whichever face-set tag the
pair carries - no branching on face type. -/
theorem facial_flux_matched_pair {dim : Nat} (gamma lam : ℚ)
    (hgamma : 1 ≤ gamma) (q : ConservedVars dim)
    (hmom : ∀ i, q.momentum i = 0) (hE : 0 ≤ q.energy)
    (tagInt tagBdry : String) (k : Fin dim) (s : ℚ) (hs : s = 1 ∨ s = -1) :
    (_facial_flux gamma lam ⟨tagInt, q, q⟩ (axisNormal k s)).mass = 0
    ∧ (_facial_flux gamma lam ⟨tagInt, q, q⟩ (axisNormal k s)).energy = 0
    ∧ (∀ i, |(_facial_flux gamma lam ⟨tagInt, q, q⟩ (axisNormal k s)).momentum i|
        = if i = k then pressure gamma q else 0)
    ∧ _facial_flux gamma lam ⟨tagInt, q, q⟩ (axisNormal k s)
        = _facial_flux gamma lam ⟨tagBdry, q, q⟩ (axisNormal k s) := by
  have hp : 0 ≤ pressure gamma q := by
    unfold pressure kineticEnergy dotVec
    simp only [hmom, mul_zero, Finset.sum_const_zero, zero_div, mul_zero,
      sub_zero]
    have h1 : (0:ℚ) ≤ gamma - 1 := by linarith
    positivity
  refine ⟨?_, ?_, ?_, rfl⟩
  · simp [_facial_flux, _inviscid_flux, axisNormal, hmom]
  · simp [_facial_flux, _inviscid_flux, axisNormal, hmom]
  · intro i
    have hmval :
        (_facial_flux gamma lam ⟨tagInt, q, q⟩ (axisNormal k s)).momentum i
          = (if i = k then pressure gamma q * s else 0) := by
      simp only [_facial_flux, _inviscid_flux, axisNormal, hmom, mul_zero,
        zero_mul, zero_div, zero_add, sub_self, add_zero, mul_ite, ite_mul]
      rw [Finset.sum_eq_single k]
      · by_cases hik : i = k <;> simp [hik]
      · intro b _ hb
        simp [hb]
      · simp
    rw [hmval]
    rcases hs with rfl | rfl
    · by_cases hik : i = k <;> simp [hik, abs_of_nonneg hp]
    · by_cases hik : i = k <;> simp [hik, abs_of_nonneg hp]

/-- Witness for C3 at the regression state rho = 1, E = 2.5, zero
momentum (so p = 1), for the interior tag against the all-faces boundary
tag, at the positive x-axis normal. -/
theorem facial_flux_matched_pair_witness :
    (_facial_flux (7/5) 1
        ⟨"int_faces", ⟨1, 5/2, fun _ => 0⟩, ⟨1, 5/2, fun _ => 0⟩⟩
        (axisNormal (0 : Fin 2) 1)).mass = 0
    ∧ (_facial_flux (7/5) 1
        ⟨"int_faces", ⟨1, 5/2, fun _ => 0⟩, ⟨1, 5/2, fun _ => 0⟩⟩
        (axisNormal (0 : Fin 2) 1)).energy = 0
    ∧ |(_facial_flux (7/5) 1
        ⟨"int_faces", ⟨1, 5/2, fun _ => 0⟩, ⟨1, 5/2, fun _ => 0⟩⟩
        (axisNormal (0 : Fin 2) 1)).momentum 0|
        = pressure (7/5) (⟨1, 5/2, fun _ => 0⟩ : ConservedVars 2) := by
  have h := facial_flux_matched_pair (7/5) 1 (by norm_num)
    (⟨1, 5/2, fun _ => 0⟩ : ConservedVars 2) (fun _ => rfl) (by norm_num)
    "int_faces" "all_faces" 0 1 (Or.inl rfl)
  exact ⟨h.1, h.2.1, by simpa using h.2.2.1 0⟩

/-- The zero right-hand-side field value (one node). -/
def zeroVars (dim : Nat) : ConservedVars dim :=
  ⟨0, 0, fun _ => 0⟩

/-- Modelled from the spec: mirgecom/euler.py inviscid_operator is not
under src/, and the discretization library it drives is an external
collaborator.  The operator - volume divergence of the physical flux
minus the surface integral of the numerical flux over every face,
combined through the (external) mass-matrix inversion - is modelled on a
one-dimensional periodic grid of n cells of width h: the rate of change
of cell i is the difference of the facial fluxes through its right and
left faces, each resolved by _facial_flux from the trace pair of the two
adjacent cell states with the outward (+1) normal. -/
def inviscid_operator_periodic (gamma lam h : ℚ) (n : ℕ)
    (q : ZMod n → ConservedVars 1) : ZMod n → ConservedVars 1 :=
  fun i =>
    let fR := _facial_flux gamma lam ⟨"int_faces", q i, q (i + 1)⟩ (fun _ => 1)
    let fL := _facial_flux gamma lam ⟨"int_faces", q (i - 1), q i⟩ (fun _ => 1)
    { mass := -((fR.mass - fL.mass) / h)
      energy := -((fR.energy - fL.energy) / h)
      momentum := fun m => -((fR.momentum m - fL.momentum m) / h) }

/-- C2: a uniform free-stream state (constant mass, constant energy, any
constant momentum including zero) plugged into the inviscid operator
over a periodic domain yields the zero right-hand side: every component
of the result is exactly zero at every cell, hence below the 1e-9
regression tolerance in any norm. -/
theorem uniform_flow_zero_rhs (gamma lam h : ℚ) (n : ℕ)
    (q0 : ConservedVars 1) (q : ZMod n → ConservedVars 1)
    (huni : ∀ i, q i = q0) (i : ZMod n) :
    inviscid_operator_periodic gamma lam h n q i = zeroVars 1
    ∧ |(inviscid_operator_periodic gamma lam h n q i).mass| < 1/1000000000
    ∧ |(inviscid_operator_periodic gamma lam h n q i).energy| < 1/1000000000
    ∧ ∀ m, |(inviscid_operator_periodic gamma lam h n q i).momentum m|
        < 1/1000000000 := by
  have hz : inviscid_operator_periodic gamma lam h n q i = zeroVars 1 := by
    unfold inviscid_operator_periodic zeroVars
    simp only [huni]
    refine ConservedVars.ext ?_ ?_ ?_
    · simp
    · simp
    · funext m
      simp
  refine ⟨hz, ?_, ?_, ?_⟩
  · rw [hz]; norm_num [zeroVars]
  · rw [hz]; norm_num [zeroVars]
  · intro m; rw [hz]; norm_num [zeroVars]

/-- Witness for C2: a four-cell periodic grid with the uniform state
rho = 1, E = 2.5 and constant nonzero momentum 3 has zero discrete
time-derivative at cell 0. -/
theorem uniform_flow_zero_rhs_witness :
    inviscid_operator_periodic (7/5) 1 (1/10) 4
        (fun _ => (⟨1, 5/2, fun _ => 3⟩ : ConservedVars 1)) 0 = zeroVars 1 :=
  (uniform_flow_zero_rhs (7/5) 1 (1/10) 4 ⟨1, 5/2, fun _ => 3⟩ _
    (fun _ => rfl) 0).1

/-- Modelled from the spec: mirgecom/initializers.py Vortex2D is not
under src/.  The isentropic-vortex conserved state at one node: the
spec gives density and the velocity components (u, v) as Gaussian
closed forms of the node position, with pressure = density^gamma and
the energy obtained by inverting the EOS pressure relation, so
energy = density^gamma / (gamma - 1) + density*(u^2 + v^2)/2 and
momentum = density * (u, v).  The transcendental node values - the
density, its gamma-th power, and the velocity components - enter as the
parameters mass, mpowg, u, v. -/
def vortex2DState (gamma mass mpowg u v : ℚ) : ConservedVars 2 :=
  { mass := mass
    energy := mpowg / (gamma - 1) + mass * (u^2 + v^2) / 2
    momentum := fun i => mass * (if i = (0 : Fin 2) then u else v) }

/-- C4: at every node, the Vortex2D state at t = 0 has ideal-gas EOS
pressure (gamma = 1.4) equal to mass^gamma - exactly, hence within the
1e-15 regression tolerance: the isentropic relation holds. -/
theorem vortex_pressure_isentropic (mass mpowg u v : ℚ) (hmass : mass ≠ 0) :
    pressure idealGasGamma (vortex2DState idealGasGamma mass mpowg u v) = mpowg
    ∧ |pressure idealGasGamma (vortex2DState idealGasGamma mass mpowg u v)
        - mpowg| < 1/1000000000000000 := by
  have hval :
      pressure idealGasGamma (vortex2DState idealGasGamma mass mpowg u v)
        = mpowg := by
    unfold pressure kineticEnergy dotVec vortex2DState idealGasGamma
    simp only [Fin.sum_univ_two]
    norm_num
    field_simp
    ring
  exact ⟨hval, by rw [hval]; norm_num⟩

/-- Witness for C4 at the concrete node values mass = 2, mass^gamma
represented by mpowg = 3, velocity (1, -1). -/
theorem vortex_pressure_isentropic_witness :
    pressure idealGasGamma (vortex2DState idealGasGamma 2 3 1 (-1)) = 3 :=
  (vortex_pressure_isentropic 2 3 1 (-1) (by norm_num)).1

/-- Modelled from the spec: mirgecom/initializers.py SodShock1D is not
under src/.  The Sod shock-tube initial state at a node with first
coordinate x: piecewise-constant left/right states split at x = 0.5,
standard Sod values (left density 1 and pressure 1, right density 0.125
and pressure 0.1), zero velocity, energy from inverting the EOS
pressure relation. -/
def sodShock1D (gamma : ℚ) (dim : Nat) (x : ℚ) : ConservedVars dim :=
  if x < 1/2 then ⟨1, 1 / (gamma - 1), fun _ => 0⟩
  else ⟨1/8, (1/10) / (gamma - 1), fun _ => 0⟩

/-- C6: at every node, the SodShock1D state at t = 0 has EOS pressure
exactly 1.0 where the first coordinate is below 0.5 and exactly 0.1
where it is at or above 0.5 - hence within the 1e-15 tolerance. -/
theorem sod_shock_pressure (x : ℚ) :
    pressure idealGasGamma (sodShock1D idealGasGamma 2 x)
      = if x < 1/2 then 1 else 1/10 := by
  unfold pressure kineticEnergy dotVec sodShock1D idealGasGamma
  split_ifs with hx <;> simp [Fin.sum_univ_two] <;> norm_num

/-- Modelled from the spec: mirgecom/initializers.py Lump is not under
src/.  Lump density at one node,
rho0 + rhoamp * exp(-(x - center - velocity*t)^2 / width^2); the
Gaussian exponential value at the node (which carries all the t and x
dependence) enters as the parameter gaussianFactor. -/
def lumpDensity (rho0 rhoamp gaussianFactor : ℚ) : ℚ :=
  rho0 + rhoamp * gaussianFactor

/-- Modelled from the spec: mirgecom/initializers.py Lump is not under
src/.  The Lump conserved state at one node: density from lumpDensity,
momentum = density * velocity, pressure fixed at p0 with the energy
derived by inverting the EOS pressure relation,
energy = p0 / (gamma - 1) + density * |velocity|^2 / 2. -/
def lumpState {dim : Nat} (gamma rho0 p0 rhoamp gaussianFactor : ℚ)
    (velocity : Fin dim → ℚ) : ConservedVars dim :=
  let rho := lumpDensity rho0 rhoamp gaussianFactor
  { mass := rho
    energy := p0 / (gamma - 1) + rho * dotVec velocity velocity / 2
    momentum := fun i => rho * velocity i }

/-- C7: for every Lump configuration, time and node (both enter only
through the Gaussian factor), the EOS pressure of the produced state is
exactly the configured background pressure p0 - the energy is built by
inverting the EOS pressure relation, so pressure round-trips; and with
amplitude rhoamp = 0 the density reduces to the uniform background
rho0. -/
theorem lump_pressure_roundtrip {dim : Nat}
    (gamma rho0 p0 rhoamp gaussianFactor : ℚ) (velocity : Fin dim → ℚ)
    (hgamma : gamma ≠ 1)
    (hrho : lumpDensity rho0 rhoamp gaussianFactor ≠ 0) :
    pressure gamma
        (lumpState gamma rho0 p0 rhoamp gaussianFactor velocity) = p0
    ∧ lumpDensity rho0 0 gaussianFactor = rho0 := by
  constructor
  · have hdot : dotVec (fun i => lumpDensity rho0 rhoamp gaussianFactor
          * velocity i)
        (fun i => lumpDensity rho0 rhoamp gaussianFactor * velocity i)
        = (lumpDensity rho0 rhoamp gaussianFactor)^2
          * dotVec velocity velocity := by
      unfold dotVec
      rw [Finset.mul_sum]
      exact Finset.sum_congr rfl (fun i _ => by ring)
    have hg1 : gamma - 1 ≠ 0 := sub_ne_zero.mpr hgamma
    unfold pressure kineticEnergy lumpState
    simp only
    rw [hdot]
    field_simp
    ring
  · unfold lumpDensity
    ring

/-- Witness for C7 with the CO2 gas constant gamma = 1.289 from the Y0
driver, background rho0 = 2, p0 = 100, amplitude 1, Gaussian factor 1/2
and three-dimensional velocity 3 in every direction. -/
theorem lump_pressure_roundtrip_witness :
    pressure (1289/1000)
        (lumpState (1289/1000) 2 100 1 (1/2) (fun _ : Fin 3 => 3)) = 100
    ∧ lumpDensity 2 0 (1/2) = 2 :=
  lump_pressure_roundtrip (1289/1000) 2 100 1 (1/2) (fun _ => 3)
    (by norm_num) (by norm_num [lumpDensity])

/-- The end-of-run consistency check at the tail of main in
src/examples/y0euler_restart.py: after the step loop returns, raise
ValueError when current_t - t_final < 0, otherwise fall through and
terminate normally. -/
def finalTimeCheck (current_t t_final : ℚ) : Except String Unit :=
  if current_t - t_final < 0 then
    Except.error "Simulation exited abnormally"
  else
    Except.ok ()

/-- C8: the driver raises the hard error exactly when the final
simulation time has not reached the target, and terminates normally
exactly when the target has been reached or exceeded. -/
theorem final_time_check_abnormal (current_t t_final : ℚ) :
    (finalTimeCheck current_t t_final
        = Except.error "Simulation exited abnormally"
      ↔ current_t - t_final < 0)
    ∧ (finalTimeCheck current_t t_final = Except.ok ()
      ↔ t_final ≤ current_t) := by
  unfold finalTimeCheck
  constructor <;> split_ifs with h <;> simp [h] <;> linarith

/-- A per-quantity field bundle held by a state consumer: either one
scalar field (mass, energy, pressure, temperature) or a vector of
component fields (momentum). -/
inductive QuantityValue where
  | scalarField (f : List ℚ)
  | vectorField (fs : List (List ℚ))

/-- The state_vars dictionary produced by extract_vars_for_logging,
keyed by quantity name. -/
def StateVars : Type := String → QuantityValue

/-- The logging quantity of src/mirgecom/logging_quantities.py
(DiscretizationBasedQuantity): the quantity name, the optional momentum
axis, the discretization reduction closure chosen from the op at
construction (nodal_min / nodal_max / norm, an external discretization
operator, held as a function), and the StateConsumer state_vars slot,
None until a state is set. -/
structure DiscretizationBasedQuantity where
  quantity : String
  axis : Option Nat
  discrReduction : List ℚ → ℚ
  state_vars : Option StateVars

/-- StateConsumer.set_state_vars: store freshly extracted state
variables on the consumer. -/
def DiscretizationBasedQuantity.set_state_vars
    (q : DiscretizationBasedQuantity) (sv : StateVars) :
    DiscretizationBasedQuantity :=
  { q with state_vars := some sv }

/-- DiscretizationBasedQuantity.__call__: return None when no state is
stored; otherwise select the quantity from state_vars (picking the axis
component for momentum) and return its discretization reduction.  The
call leaves the quantity - in particular its stored state_vars -
unchanged; the returned pair is (result, quantity after the read). -/
def DiscretizationBasedQuantity.callQuantity
    (q : DiscretizationBasedQuantity) :
    Option ℚ × DiscretizationBasedQuantity :=
  match q.state_vars with
  | none => (none, q)
  | some sv =>
    let fieldData :=
      match sv q.quantity, q.axis with
      | QuantityValue.vectorField fs, some i => fs.getD i []
      | QuantityValue.vectorField fs, none => fs.getD 0 []
      | QuantityValue.scalarField f, _ => f
    (some (q.discrReduction fieldData), q)

/-- A concrete state_vars dictionary: every quantity maps to the scalar
field [1, 2]. -/
def sampleStateVars : StateVars :=
  fun _ => QuantityValue.scalarField [1, 2]

/-- A concrete mass quantity with a nodal-max reduction and a stored
state. -/
def sampleQuantity : DiscretizationBasedQuantity :=
  { quantity := "mass"
    axis := none
    discrReduction := fun f => f.foldr max 0
    state_vars := some sampleStateVars }

/-- C9 counterexample: reading the concrete quantity twice in a row
without an intervening set_state returns the value again on the second
read - some 2, not None - so the stored state did not clear itself. -/
theorem second_read_not_none :
    ((sampleQuantity.callQuantity).2.callQuantity).1 = some 2 := by
  decide

/-- C9 amended: a read via __call__ leaves the quantity (hence its
stored state) unchanged, and returns None exactly when no state has
been set; in particular a second read without an intervening set_state
repeats the first result instead of returning None. -/
theorem read_keeps_state (q : DiscretizationBasedQuantity) :
    (q.callQuantity).2 = q
    ∧ ((q.callQuantity).1 = none ↔ q.state_vars = none) := by
  rcases hq : q.state_vars with _ | sv <;>
    simp [DiscretizationBasedQuantity.callQuantity, hq]

/-- Modelled from the spec: mirgecom/simutil.py check_step is not under
src/; the spec describes a configurable step-count modulus for the
transition into checkpointing. -/
def check_step (step nrestart : ℤ) : Bool :=
  step % nrestart == 0

/-- The restart-write decision of my_checkpoint in
src/examples/y0euler_restart.py: write_restart = check_step(step,
nrestart) if step != restart_step else False, where restart_step is
None on a fresh run and the step the run resumed from on a restart. -/
def writeRestartDecision (step : ℤ) (restart_step : Option ℤ)
    (nrestart : ℤ) : Bool :=
  if some step ≠ restart_step then check_step step nrestart else false

/-- C10: the checkpoint callback never writes a restart snapshot at the
step the run was resumed from, even when that step satisfies the
step-count modulus; at every other step it writes exactly when the
modulus condition holds - so the snapshot just read is never
overwritten. -/
theorem restart_snapshot_never_overwritten (step nrestart : ℤ)
    (restart_step : Option ℤ) :
    (restart_step = some step
      → writeRestartDecision step restart_step nrestart = false)
    ∧ (restart_step ≠ some step
      → writeRestartDecision step restart_step nrestart
          = check_step step nrestart) := by
  constructor
  · intro h
    simp [writeRestartDecision, h]
  · intro h
    simp [writeRestartDecision, Ne.symm h]

/-- Witness for C10: resuming at step 100 with nrestart = 100, the
callback at step 100 does not write although the modulus holds there,
while at step 200 it writes per the modulus condition. -/
theorem restart_snapshot_never_overwritten_witness :
    writeRestartDecision 100 (some 100) 100 = false
    ∧ writeRestartDecision 200 (some 100) 100 = check_step 200 100
    ∧ check_step 100 100 = true :=
  ⟨(restart_snapshot_never_overwritten 100 100 (some 100)).1 rfl,
   (restart_snapshot_never_overwritten 200 100 (some 100)).2 (by decide),
   by decide⟩

/-- A value stored in the pickled restart dictionary. -/
inductive SnapValue where
  | meshVal (meshId : Nat)
  | stateVal (flatState : List ℚ)
  | ratVal (x : ℚ)
  | intVal (n : ℤ)
deriving DecidableEq

/-- The restart snapshot pickled by my_checkpoint in
src/examples/y0euler_restart.py: a dictionary with keys local_mesh,
state, t, step, global_nelements and num_parts, modelled as an
association list. -/
def writeSnapshot (localMesh : Nat) (state : List ℚ) (t : ℚ) (step : ℤ)
    (globalNelements nparts : ℤ) : List (String × SnapValue) :=
  [("local_mesh", SnapValue.meshVal localMesh),
   ("state", SnapValue.stateVal state),
   ("t", SnapValue.ratVal t),
   ("step", SnapValue.intVal step),
   ("global_nelements", SnapValue.intVal globalNelements),
   ("num_parts", SnapValue.intVal nparts)]

/-- A dictionary access restart_data[key]: KeyError when the key is
absent. -/
def dictAccess (snapshot : List (String × SnapValue)) (key : String) :
    Except String SnapValue :=
  match snapshot.lookup key with
  | some v => Except.ok v
  | none => Except.error ("KeyError: " ++ key)

/-- The run data restored by the restart branch of main. -/
structure RestartedRun where
  localMesh : Nat
  t : ℚ
  step : ℤ
  state : List ℚ
deriving DecidableEq

/-- The restart branch of main in src/examples/y0euler_restart.py, in
source order: read local_mesh and global_nelements, assert that the
communicator size equals restart_data["nparts"], then restore t, the
step count from restart_step, and the flat state vector. -/
def readRestart (snapshot : List (String × SnapValue)) (commSize : ℤ)
    (restart_step : ℤ) : Except String RestartedRun := do
  let meshV ← dictAccess snapshot "local_mesh"
  let _gneV ← dictAccess snapshot "global_nelements"
  let npartsV ← dictAccess snapshot "nparts"
  if SnapValue.intVal commSize ≠ npartsV then
    Except.error "AssertionError: nparts mismatch"
  else
    let tV ← dictAccess snapshot "t"
    let stateV ← dictAccess snapshot "state"
    match meshV, tV, stateV with
    | SnapValue.meshVal m, SnapValue.ratVal tRestored,
        SnapValue.stateVal stRestored =>
      Except.ok ⟨m, tRestored, restart_step, stRestored⟩
    | _, _, _ => Except.error "TypeError"

/-- C5 fails on the code: for every snapshot written by my_checkpoint
and any rank with any partition count, the restart reader raises
KeyError("nparts") - the writer stored the partition count under the
key num_parts, so the reader never retrieves it and the round-trip
never restores the run. -/
theorem restart_read_key_error (localMesh : Nat) (state : List ℚ) (t : ℚ)
    (step globalNelements nparts commSize restart_step : ℤ) :
    readRestart (writeSnapshot localMesh state t step globalNelements nparts)
        commSize restart_step
      = Except.error "KeyError: nparts" := by
  rfl
